import Mathlib

set_option maxRecDepth 8192

/-!
Verification of the IELTS-Writing-Master front end.

The program under study has two source files:

* `services/geminiService.ts` — prompt assembly for the remote completion
  call (`analyzeIeltsWriting`), image encoding (`fileToGenerativePart`),
  the constant system instruction, and the error mapping around the call;
* `App.tsx` — the submission state machine (`handleSubmit` plus the
  `isLoading` / `result` / `error` state) and the markdown-subset renderer
  of the response text.

The development shallowly embeds the JavaScript string operations the code
uses (`String.prototype.split`, `trim`, `startsWith`, `substring`, global
`replace` of a plain pattern) as executable functions on `List Char`, then
translates the two files' logic on top of them.
-/

/-! ### JavaScript string primitives, embedded on `List Char` -/

/-- Boolean prefix test on character lists (embeds `String.prototype.startsWith`
for a plain pattern). -/
def listPre : List Char → List Char → Bool
  | [], _ => true
  | _ :: _, [] => false
  | a :: as, b :: bs => decide (a = b) && listPre as bs

/-- Boolean occurrence test: does `pat` occur contiguously inside `l`?
(Embeds `String.prototype.includes` / the reachability of a split point.) -/
def occursIn (pat : List Char) : List Char → Bool
  | [] => listPre pat []
  | c :: rest => listPre pat (c :: rest) || occursIn pat rest

/-- Worker for `jsSplit`: scan `l` left to right, cutting at every
(non-overlapping, leftmost-first) occurrence of `sep`, accumulating the
current chunk in reverse in `acc`.  This is the semantics of
`String.prototype.split` with a non-empty plain-string separator. -/
def splitOnAux (sep : List Char) : List Char → List Char → List (List Char)
  | [], acc => [acc.reverse]
  | c :: rest, acc =>
    if listPre sep (c :: rest) = true ∧ sep ≠ [] then
      acc.reverse :: splitOnAux sep (rest.drop (sep.length - 1)) []
    else
      splitOnAux sep rest (c :: acc)
termination_by l _ => l.length
decreasing_by
  · simp only [List.length_cons]
    have h1 : (rest.drop (sep.length - 1)).length ≤ rest.length := by
      rw [List.length_drop]; exact Nat.sub_le _ _
    omega
  · simp only [List.length_cons]; omega

/-- Embedding of JavaScript `s.split(sep)` for a non-empty separator. -/
def jsSplit (sep s : String) : List String :=
  (splitOnAux sep.data s.data []).map fun l => ⟨l⟩

/-- Embedding of JavaScript `s.trim()`: drop whitespace from both ends. -/
def jsTrim (s : String) : String :=
  ⟨((s.data.dropWhile Char.isWhitespace).reverse.dropWhile Char.isWhitespace).reverse⟩

/-- Embedding of JavaScript `s.startsWith(pat)`. -/
def jsStartsWith (s pat : String) : Bool :=
  listPre pat.data s.data

/-- Embedding of JavaScript `s.substring(n)`. -/
def jsSubstring (s : String) (n : Nat) : String :=
  ⟨s.data.drop n⟩

/-- Embedding of JavaScript `s.replace(/pat/g, '')` for a plain pattern:
split on the pattern and rejoin with nothing. -/
def removeAll (pat s : String) : String :=
  String.join (jsSplit pat s)

/-- Boolean substring test on strings. -/
def occursB (pat s : String) : Bool :=
  occursIn pat.data s.data

/-! ### Basic lemmas about the string primitives -/

theorem strData_append (a b : String) : (a ++ b).data = a.data ++ b.data := by
  cases a; cases b; rfl

theorem strData_empty : ("" : String).data = [] := rfl

theorem strMk_data (s : String) : (⟨s.data⟩ : String) = s := by
  cases s; rfl

theorem listPre_self_append (p t : List Char) : listPre p (p ++ t) = true := by
  induction p with
  | nil => simp [listPre]
  | cons a as ih => simp [listPre, ih]

theorem listPre_exists {p l : List Char} (h : listPre p l = true) :
    ∃ t, l = p ++ t := by
  induction p generalizing l with
  | nil => exact ⟨l, rfl⟩
  | cons a as ih =>
    cases l with
    | nil => simp [listPre] at h
    | cons b bs =>
      simp only [listPre, Bool.and_eq_true, decide_eq_true_eq] at h
      obtain ⟨rfl, h2⟩ := h
      obtain ⟨t, rfl⟩ := ih h2
      exact ⟨t, rfl⟩

theorem occursIn_nil_pat (l : List Char) : occursIn [] l = true := by
  induction l with
  | nil => rfl
  | cons c rest ih => simp [occursIn, listPre]

theorem occursIn_cons_of (p : List Char) {l : List Char} (c : Char)
    (h : occursIn p l = true) : occursIn p (c :: l) = true := by
  simp [occursIn, h]

theorem occursIn_append_pre {p l : List Char} (x : List Char)
    (h : occursIn p l = true) : occursIn p (x ++ l) = true := by
  induction x with
  | nil => simpa using h
  | cons c cs ih => exact occursIn_cons_of _ c ih

theorem occursIn_self_append (p t : List Char) (hp : p ≠ []) :
    occursIn p (p ++ t) = true := by
  cases p with
  | nil => exact absurd rfl hp
  | cons a as =>
    simp only [occursIn]
    have h := listPre_self_append (a :: as) t
    simp only [List.cons_append] at h ⊢
    simp [h]

theorem occursIn_append_post {p l : List Char} (y : List Char)
    (h : occursIn p l = true) : occursIn p (l ++ y) = true := by
  induction l with
  | nil =>
    cases p with
    | nil => simpa using occursIn_nil_pat y
    | cons a as => simp [occursIn, listPre] at h
  | cons c rest ih =>
    simp only [occursIn, Bool.or_eq_true] at h
    rcases h with h | h
    · obtain ⟨t, ht⟩ := listPre_exists h
      have heq : c :: (rest ++ y) = p ++ (t ++ y) := by
        rw [show c :: (rest ++ y) = (c :: rest) ++ y from rfl, ht]; simp
      rw [show (c :: rest) ++ y = c :: (rest ++ y) from rfl, heq]
      cases p with
      | nil => simpa using occursIn_nil_pat _
      | cons a as => exact occursIn_self_append _ _ (by simp)
    · rw [show (c :: rest) ++ y = c :: (rest ++ y) from rfl]
      exact occursIn_cons_of _ c (ih h)

theorem occursIn_exists {p l : List Char} (h : occursIn p l = true) :
    ∃ u v, l = u ++ p ++ v := by
  induction l with
  | nil =>
    cases p with
    | nil => exact ⟨[], [], rfl⟩
    | cons a as => simp [occursIn, listPre] at h
  | cons c rest ih =>
    simp only [occursIn, Bool.or_eq_true] at h
    rcases h with h | h
    · obtain ⟨t, ht⟩ := listPre_exists h
      exact ⟨[], t, by simpa using ht⟩
    · obtain ⟨u, v, huv⟩ := ih h
      exact ⟨c :: u, v, by simp [huv]⟩

theorem occursB_append_post {pat a : String} (b : String)
    (h : occursB pat a = true) : occursB pat (a ++ b) = true := by
  unfold occursB at *
  rw [strData_append]
  exact occursIn_append_post _ h

theorem occursB_append_pre {pat b : String} (a : String)
    (h : occursB pat b = true) : occursB pat (a ++ b) = true := by
  unfold occursB at *
  rw [strData_append]
  exact occursIn_append_pre _ h

/-! ### `services/geminiService.ts` — system instruction

The constant system instruction, transcribed verbatim from the top-level
`const systemInstruction` template literal.  It is a closed term built from
string literals only; no request data flows into it. -/

def systemInstruction : String :=
  "You are an IELTS Writing Expert and World-Class Examiner who evaluates IELTS Writing Task 1 and Task 2 based on official IELTS Band Descriptors (Task Achievement, Coherence & Cohesion, Lexical Resource, and Grammatical Range & Accuracy).\n"
  ++ "You must analyze and grade essays exactly like an IELTS examiner, provide detailed feedback, and also generate model answers for Band 6, 7, 8, and 9 versions.\n"
  ++ "\n"
  ++ "Your response must always follow this exact structure, using Markdown for formatting. Do not add any other text, greetings, or explanations outside of this structure:\n"
  ++ "\n"
  ++ "### IELTS Writing Analysis\n"
  ++ "\n"
  ++ "**Predicted Band Score:** [Band X.X]\n"
  ++ "\n"
  ++ "#### 🔍 Score Breakdown:\n"
  ++ "- Task Achievement: X/9\n"
  ++ "- Coherence & Cohesion: X/9\n"
  ++ "- Lexical Resource: X/9\n"
  ++ "- Grammatical Range & Accuracy: X/9\n"
  ++ "\n"
  ++ "#### 🧾 Feedback:\n"
  ++ "- [Detailed explanation of strengths and weaknesses based on the official band descriptors.]\n"
  ++ "- [Actionable suggestions for improvement and what to focus on next time.]\n"
  ++ "\n"
  ++ "---\n"
  ++ "\n"
  ++ "### 🧠 Example Responses by Band Level\n"
  ++ "\n"
  ++ "#### Band 6 Example:\n"
  ++ "[150 or 250-word essay]\n"
  ++ "\n"
  ++ "#### Band 7 Example:\n"
  ++ "[150 or 250-word essay]\n"
  ++ "\n"
  ++ "#### Band 8 Example:\n"
  ++ "[150 or 250-word essay]\n"
  ++ "\n"
  ++ "#### Band 9 Example:\n"
  ++ "[150 or 250-word essay]\n"
  ++ "\n"
  ++ "**Important Rules:**\n"
  ++ "- If the user provides an essay (text or handwritten image), you MUST provide the \"IELTS Writing Analysis\" section.\n"
  ++ "- If the user provides a handwritten essay image, transcribe it internally to analyze it. If the handwriting is illegible, mention this in the feedback.\n"
  ++ "- If NO essay is provided (neither text nor image), you MUST OMIT the entire \"IELTS Writing Analysis\" section (including its header, score, breakdown, and feedback) and ONLY provide the \"Example Responses by Band Level\" section.\n"
  ++ "- Always write in a formal IELTS academic tone.\n"
  ++ "- Ensure essays strictly follow IELTS structure (introduction, overview/body paragraphs, conclusion).\n"
  ++ "- For Task 1, ensure responses accurately summarize and report the main features of any provided data/image. Do not give an opinion.\n"
  ++ "- For Task 2, ensure responses have a clear position, well-developed arguments with examples, and a strong conclusion.\n"
  ++ "- Use British English spelling (e.g., “organisation”, “analyse”).\n"
  ++ "- Keep the total word count for generated essays within the recommended range (Task 1: 150–180 words, Task 2: 250–280 words)."

/-! ### `services/geminiService.ts` — image encoding

`fileToGenerativePart` wraps a `FileReader.readAsDataURL` read in a
`Promise` whose executor only installs an `onloadend` handler calling
`resolve((reader.result as string).split(',')[1])`.  Two read outcomes are
possible for a given file:

* the read completes with a data URL (`ReadResult.ok url`): the promise
  resolves with the text after the first comma of `url` (`undefined`,
  i.e. `none`, when the string has no comma);
* the read fails or never completes (`ReadResult.err`): either `onloadend`
  never fires, or it fires with `reader.result = null` and the handler
  throws a `TypeError` on `null.split` before `resolve` runs.  In both
  cases no `reject` exists and the promise never settles, so `await`ing it
  suspends the caller forever (`EncodeOutcome.hang`).  No error value is
  ever produced. -/

/-- Outcome of the underlying `FileReader` read of one image file. -/
inductive ReadResult where
  | ok (dataUrl : String)
  | err
deriving DecidableEq, Repr

/-- An image argument to `analyzeIeltsWriting`: its declared media type
(`file.type`) together with the outcome its read would have. -/
structure FileInput where
  mimeType : String
  read : ReadResult
deriving DecidableEq, Repr

/-- One element of `contents.parts` (named `MsgPart` because Mathlib already
has a `Part`). -/
inductive MsgPart where
  | inlineData (data : Option String) (mimeType : String)
  | text (t : String)
deriving DecidableEq, Repr

/-- Embedding of `(reader.result as string).split(',')[1]` — the base64 payload of a
data URL, `none` when the string contains no comma (JS `undefined`). -/
def dataUrlPayload (s : String) : Option String :=
  (jsSplit "," s)[1]?

/-- Result of `await fileToGenerativePart(file)`. -/
inductive EncodeOutcome where
  | part (p : MsgPart)
  | hang
deriving DecidableEq, Repr

/-- Embedding of `fileToGenerativePart` (see the section comment above for
the promise semantics). -/
def fileToGenerativePart (f : FileInput) : EncodeOutcome :=
  match f.read with
  | .ok url => .part (MsgPart.inlineData (dataUrlPayload url) f.mimeType)
  | .err => .hang

/-! ### `services/geminiService.ts` — prompt assembly -/

/-- The essay portion of `userPromptText`: the `if (essayImageFile) ...
else if (userWriting && userWriting.trim().length > 0) ... else ...`
cascade of `analyzeIeltsWriting`.  JS string truthiness is non-emptiness;
`userWriting.trim().length > 0` is `0 < (jsTrim w).length`. -/
def essaySegment (qiPresent : Bool) (w : String) (eiPresent : Bool) : String :=
  if eiPresent then
    "\n" ++ (if qiPresent then "[Image 2]" else "[Image 1]")
      ++ " attached is the User's Handwritten Essay. Please transcribe this image internally and analyze the essay content contained within it."
  else if w ≠ "" ∧ 0 < (jsTrim w).length then
    "\nUser's Essay Text:\n---\n" ++ jsTrim w ++ "\n---"
  else
    "\nUser's Essay: [NO ESSAY PROVIDED]"

/-- The part of `userPromptText` built before the essay branch: the
template-literal header plus, when a question image is attached, the
`[Image 1]` reference sentence. -/
def promptHeader (taskType topic : String) (qiPresent : Bool) : String :=
  "User Request:\nTask Type: " ++ taskType ++ "\nTopic: " ++ topic ++ "\n"
  ++ (if qiPresent then "\n[Image 1] attached is the Task 1 Question Reference (Chart/Graph)." else "")

/-- The final sentence appended to `userPromptText`. -/
def closingSentence : String :=
  "\nPlease provide the analysis and/or model answers as instructed in your system prompt."

/-- The complete `userPromptText` string as assembled by
`analyzeIeltsWriting`; it depends on the images only through their
presence. -/
def userPromptText (taskType topic w : String) (qiPresent eiPresent : Bool) : String :=
  promptHeader taskType topic qiPresent ++ essaySegment qiPresent w eiPresent ++ closingSentence

/-- The `config` object passed to `ai.models.generateContent` (only the
field the claims are about). -/
structure GenConfig where
  systemInstruction : String
deriving DecidableEq, Repr

/-- The request handed to `ai.models.generateContent`. -/
structure Request where
  model : String
  parts : List MsgPart
  config : GenConfig
deriving DecidableEq, Repr

/-- Await one optional image: `none` input contributes no part; a present
image contributes its encoded part, or suspends the whole call forever if
its read cannot complete. -/
def encodeOpt : Option FileInput → Option (List MsgPart)
  | none => some []
  | some f =>
    match fileToGenerativePart f with
    | .part p => some [p]
    | .hang => none

/-- Embedding of the request-assembly phase of `analyzeIeltsWriting`: the
question image is awaited first, then the essay image (the two `await
fileToGenerativePart(...)` statements run sequentially, so part order is
program order and cannot depend on encoding completion timing), then the
text part is pushed.  `none` means an encode hung and no request is ever
sent. -/
def analyzeRequest (taskType topic w : String)
    (questionImageFile essayImageFile : Option FileInput) : Option Request :=
  match encodeOpt questionImageFile with
  | none => none
  | some qparts =>
    match encodeOpt essayImageFile with
    | none => none
    | some eparts =>
      some { model := "gemini-2.5-pro",
             parts := qparts ++ eparts
               ++ [MsgPart.text (userPromptText taskType topic w
                     questionImageFile.isSome essayImageFile.isSome)],
             config := { systemInstruction := systemInstruction } }

/-! ### `services/geminiService.ts` — completion call and error mapping -/

/-- Outcome of one remote `generateContent` call. -/
inductive RemoteOutcome where
  | success (text : String)
  | failure (err : String)
deriving DecidableEq, Repr

/-- The fixed message of the `Error` thrown by the `catch` block of
`analyzeIeltsWriting`. -/
def completionFailureMessage : String :=
  "Failed to get a response from the AI. Please check your API key and network connection."

/-- The `try { ... generateContent ... } catch` around the remote call:
exactly one call is made (`attempts 0`; later entries of `attempts` model
calls that would happen only under a retry policy, which the code has
none of); any error is replaced by the single fixed failure message. -/
def runCompletion (_req : Request) (attempts : Nat → RemoteOutcome) :
    Except String String :=
  match attempts 0 with
  | .success t => .ok t
  | .failure _ => .error completionFailureMessage

/-- Embedding of the whole of `analyzeIeltsWriting`: assemble the request,
then run the completion call.  The outer `none` means an image encode hung
and the function never returns (no remote call is ever made). -/
def analyzeIeltsWriting (taskType topic w : String)
    (questionImageFile essayImageFile : Option FileInput)
    (attempts : Nat → RemoteOutcome) : Option (Except String String) :=
  (analyzeRequest taskType topic w questionImageFile essayImageFile).map
    fun req => runCompletion req attempts

/-! ### `App.tsx` — validation messages -/

/-- The empty-topic validation message of `handleSubmit`. -/
def topicValidationMessage : String :=
  "Please provide a topic for your writing task."

/-- The oversized-image validation message of the two image-change
handlers. -/
def imageSizeValidationMessage : String :=
  "Image size should not exceed 4MB."

/-! ### `App.tsx` — response renderer

The output panel maps `result.split('---')` to sections and, within each
section, `section.split('\n')` to lines, classifying each line by the
prefix cascade of the JSX (`'### '`, `'#### '`, `'**'`, `'- '`, blank,
otherwise paragraph). -/

/-- The kind of node one rendered line produces. -/
inductive RenderToken where
  | heading3 (text : String)
  | heading4 (text : String)
  | emphasis (text : String)
  | listItem (text : String)
  | blank
  | paragraph (text : String)
deriving DecidableEq, Repr

/-- The per-line classification cascade of the renderer:
`line.startsWith('### ')` → h3 of `line.substring(4)`;
`line.startsWith('#### ')` → h4 of `line.substring(5)`;
`line.startsWith('**')` → bold paragraph of `line.replace(/\x2a\x2a/g, '')`;
`line.startsWith('- ')` → list item of `line.substring(2)`;
`line.trim() === ''` → line break; otherwise a plain paragraph. -/
def classifyLine (line : String) : RenderToken :=
  if jsStartsWith line "### " then .heading3 (jsSubstring line 4)
  else if jsStartsWith line "#### " then .heading4 (jsSubstring line 5)
  else if jsStartsWith line "**" then .emphasis (removeAll "**" line)
  else if jsStartsWith line "- " then .listItem (jsSubstring line 2)
  else if jsTrim line = "" then .blank
  else .paragraph line

/-- The whole rendering of a response text: `result.split('---')`, then
each section's `split('\n')` classified line by line. -/
def renderSections (result : String) : List (List RenderToken) :=
  (jsSplit "---" result).map fun sec => (jsSplit "\n" sec).map classifyLine

/-! ### `App.tsx` — submission state machine

The state triple `(isLoading, result, error)` of `App`, stepped by the
submission events of `handleSubmit`:

* a submit click while `isSubmitDisabled` (`isLoading || !topic`) is
  ignored by the disabled button, so `handleSubmit` only runs with
  `isLoading = false` and a non-empty topic — in particular its
  `if (!topic)` early-return validation branch is unreachable from the UI;
* a run of `handleSubmit` past the guard sets `isLoading = true`,
  `error = null`, `result = ''`;
* on a resolved call, `setResult(response)` keeps `error` and the
  `finally` clears `isLoading`;
* on a rejected call, `setError(...)` keeps `result` and the `finally`
  clears `isLoading`; the message is `` `An error occurred: ...` `` for an
  `Error` and a fixed unknown-error string otherwise.

The display conditions below are those of the JSX: the spinner block
(`isLoading && ...`), the placeholder block
(`!isLoading && !result && !error && ...`), the rendered-result block
(`result && ...`), and the error paragraph under the submit button
(`error && ...`). -/

/-- The `(isLoading, result, error)` state of `App`. -/
structure UIState where
  isLoading : Bool
  result : String
  error : Option String
deriving DecidableEq, Repr

/-- The initial `useState` values: not loading, empty result, no error. -/
def initialUIState : UIState := ⟨false, "", none⟩

/-- States of `App` reachable through the submission events (see the
section comment for the source of each rule). -/
inductive Reachable : UIState → Prop where
  | init : Reachable initialUIState
  | start {s : UIState} (topic : String) :
      Reachable s → s.isLoading = false → topic ≠ "" →
      Reachable ⟨true, "", none⟩
  | succeed {s : UIState} (response : String) :
      Reachable s → s.isLoading = true →
      Reachable ⟨false, response, s.error⟩
  | failKnown {s : UIState} (message : String) :
      Reachable s → s.isLoading = true →
      Reachable ⟨false, s.result, some ("An error occurred: " ++ message)⟩
  | failUnknown {s : UIState} :
      Reachable s → s.isLoading = true →
      Reachable ⟨false, s.result, some "An unknown error occurred during analysis."⟩

/-- JSX: `isLoading && <spinner>`. -/
def shownLoading (s : UIState) : Bool := s.isLoading

/-- JSX: `error && <p>` (input panel). -/
def shownError (s : UIState) : Bool := s.error.isSome

/-- JSX: `result && <rendered result>` (string truthiness). -/
def shownResult (s : UIState) : Bool := decide (s.result ≠ "")

/-- JSX: `!isLoading && !result && !error && <placeholder>`. -/
def shownPlaceholder (s : UIState) : Bool :=
  !s.isLoading && decide (s.result = "") && !s.error.isSome

/-- How many of the four mutually exclusive displays are visible. -/
def shownCount (s : UIState) : Nat :=
  (cond (shownLoading s) 1 0) + (cond (shownError s) 1 0)
    + (cond (shownResult s) 1 0) + (cond (shownPlaceholder s) 1 0)

/-! ### Further substring lemmas -/

theorem occursIn_intro (u p v : List Char) : occursIn p (u ++ (p ++ v)) = true := by
  cases hp : p with
  | nil => simpa using occursIn_nil_pat (u ++ ([] ++ v))
  | cons a as =>
    exact occursIn_append_pre u (occursIn_self_append _ _ (by simp))

/-- Positive substring facts are proved by exhibiting the split of the
ambient string's character list around the pattern. -/
theorem occursB_of_data {pat s : String} (u v : List Char)
    (h : s.data = u ++ (pat.data ++ v)) : occursB pat s = true := by
  unfold occursB
  rw [h]
  exact occursIn_intro u _ v

/-! ### Claim theorems -/

/-- Claim C1. With both a reference (question) image and an essay image
present, the request's parts are, in this fixed order: the reference image
part, the essay image part, then the single text part; the text labels the
reference image `[Image 1]` and the essay image `[Image 2]`.  The order and
labels hold for every base64 payload the two (sequentially awaited)
encodings produce, so they cannot depend on encoding completion timing.
With only the essay image present, its label is `[Image 1]`. -/
theorem analyzeIeltsWriting_image_labels_and_order
    (taskType topic w qm em qurl eurl : String) :
    (analyzeRequest taskType topic w (some ⟨qm, .ok qurl⟩) (some ⟨em, .ok eurl⟩) =
      some { model := "gemini-2.5-pro",
             parts := [MsgPart.inlineData (dataUrlPayload qurl) qm,
                       MsgPart.inlineData (dataUrlPayload eurl) em,
                       MsgPart.text (userPromptText taskType topic w true true)],
             config := { systemInstruction := systemInstruction } }) ∧
    occursB "\n[Image 1] attached is the Task 1 Question Reference (Chart/Graph)."
      (userPromptText taskType topic w true true) = true ∧
    occursB ("\n" ++ "[Image 2]"
        ++ " attached is the User's Handwritten Essay. Please transcribe this image internally and analyze the essay content contained within it.")
      (userPromptText taskType topic w true true) = true ∧
    (analyzeRequest taskType topic w none (some ⟨em, .ok eurl⟩) =
      some { model := "gemini-2.5-pro",
             parts := [MsgPart.inlineData (dataUrlPayload eurl) em,
                       MsgPart.text (userPromptText taskType topic w false true)],
             config := { systemInstruction := systemInstruction } }) ∧
    occursB ("\n" ++ "[Image 1]"
        ++ " attached is the User's Handwritten Essay. Please transcribe this image internally and analyze the essay content contained within it.")
      (userPromptText taskType topic w false true) = true := by
  refine ⟨rfl, ?_, ?_, rfl, ?_⟩
  · refine occursB_of_data
      (("User Request:\nTask Type: " : String).data ++ (taskType.data
        ++ (("\nTopic: " : String).data ++ (topic.data ++ ("\n" : String).data))))
      ((essaySegment true w true).data ++ closingSentence.data) ?_
    simp [userPromptText, promptHeader, closingSentence, strData_append, List.append_assoc]
  · refine occursB_of_data
      (("User Request:\nTask Type: " : String).data ++ (taskType.data
        ++ (("\nTopic: " : String).data ++ (topic.data ++ (("\n" : String).data
        ++ ("\n[Image 1] attached is the Task 1 Question Reference (Chart/Graph)." : String).data)))))
      (closingSentence.data) ?_
    simp [userPromptText, promptHeader, essaySegment, closingSentence, strData_append,
      List.append_assoc]
  · refine occursB_of_data
      (("User Request:\nTask Type: " : String).data ++ (taskType.data
        ++ (("\nTopic: " : String).data ++ (topic.data ++ ("\n" : String).data))))
      (closingSentence.data) ?_
    simp [userPromptText, promptHeader, essaySegment, closingSentence, strData_append,
      List.append_assoc]

theorem strData_ne_nil {s : String} (h : s ≠ "") : s.data ≠ [] := by
  intro hl
  apply h
  cases s with
  | mk l => cases hl; rfl

theorem strLength_pos {s : String} (h : s.data ≠ []) : 0 < s.length := by
  cases s with
  | mk l => simpa [String.length] using List.length_pos.mpr h

/-- Claim C2. With no essay image and essay text that trims to empty (this
covers both the empty and the whitespace-only text, since the code tests
`userWriting && userWriting.trim().length > 0`), the essay branch taken is
the `[NO ESSAY PROVIDED]` one, the assembled user message states it, and
the constant system instruction carries the corresponding no-essay
(example-only) rule. -/
theorem userMessage_no_essay_branch (taskType topic w : String) (qiPresent : Bool)
    (h : jsTrim w = "") :
    essaySegment qiPresent w false = "\nUser's Essay: [NO ESSAY PROVIDED]" ∧
    userPromptText taskType topic w qiPresent false =
      promptHeader taskType topic qiPresent ++ "\nUser's Essay: [NO ESSAY PROVIDED]"
        ++ closingSentence ∧
    occursB "[NO ESSAY PROVIDED]" (userPromptText taskType topic w qiPresent false) = true ∧
    occursB "If NO essay is provided (neither text nor image), you MUST OMIT"
      systemInstruction = true := by
  have hseg : essaySegment qiPresent w false = "\nUser's Essay: [NO ESSAY PROVIDED]" := by
    simp [essaySegment, h]
  have hmsg : userPromptText taskType topic w qiPresent false =
      promptHeader taskType topic qiPresent ++ "\nUser's Essay: [NO ESSAY PROVIDED]"
        ++ closingSentence := by
    rw [userPromptText, hseg]
  refine ⟨hseg, hmsg, ?_, by decide⟩
  refine occursB_of_data
    ((promptHeader taskType topic qiPresent).data ++ ("\nUser's Essay: " : String).data)
    (closingSentence.data) ?_
  rw [hmsg]
  have hsplit : ("\nUser's Essay: [NO ESSAY PROVIDED]" : String).data =
      ("\nUser's Essay: " : String).data ++ ("[NO ESSAY PROVIDED]" : String).data := by
    decide
  simp [strData_append, hsplit, List.append_assoc]

/-- Witness for `userMessage_no_essay_branch` at whitespace-only essay
text. -/
theorem userMessage_no_essay_branch_witness :
    jsTrim "   " = "" ∧
    occursB "[NO ESSAY PROVIDED]"
      (userPromptText "Task 2" "Technology in education" "   " false false) = true :=
  ⟨by decide,
   (userMessage_no_essay_branch "Task 2" "Technology in education" "   " false
      (by decide)).2.2.1⟩

/-- Claim C3, counterexample. The user message does not embed the essay text
verbatim: for the essay text `" hi"` (non-empty after trimming), the string
actually placed between the `---` delimiters is the trimmed `"hi"`, and the
verbatim block `"\n---\n hi\n---"` occurs nowhere in the message. -/
theorem essayText_not_verbatim :
    jsTrim " hi" ≠ "" ∧
    occursB ("\n---\n" ++ " hi" ++ "\n---")
      (userPromptText "Task 2" "" " hi" false false) = false := by
  constructor
  · decide
  · decide

/-- Claim C3, amended. With no essay image and essay text non-empty after
trimming, the assembled user message embeds the *trimmed* essay text
verbatim between the `---` delimiter markers. -/
theorem userMessage_embeds_trimmed_essay (taskType topic w : String) (qiPresent : Bool)
    (h : jsTrim w ≠ "") :
    essaySegment qiPresent w false = "\nUser's Essay Text:\n---\n" ++ jsTrim w ++ "\n---" ∧
    occursB ("\n---\n" ++ jsTrim w ++ "\n---")
      (userPromptText taskType topic w qiPresent false) = true := by
  have hw : w ≠ "" := by
    intro hw0
    exact h (by rw [hw0]; rfl)
  have hcond : w ≠ "" ∧ 0 < (jsTrim w).length := ⟨hw, strLength_pos (strData_ne_nil h)⟩
  have hseg : essaySegment qiPresent w false =
      "\nUser's Essay Text:\n---\n" ++ jsTrim w ++ "\n---" := by
    simp [essaySegment, hcond]
  refine ⟨hseg, ?_⟩
  refine occursB_of_data
    ((promptHeader taskType topic qiPresent).data ++ ("\nUser's Essay Text:" : String).data)
    (closingSentence.data) ?_
  have hsplit : ("\nUser's Essay Text:\n---\n" : String).data =
      ("\nUser's Essay Text:" : String).data ++ ("\n---\n" : String).data := by
    decide
  rw [userPromptText, hseg]
  simp [strData_append, hsplit, List.append_assoc]

/-- Witness for `userMessage_embeds_trimmed_essay`. -/
theorem userMessage_embeds_trimmed_essay_witness :
    jsTrim "My essay." ≠ "" ∧
    occursB ("\n---\n" ++ jsTrim "My essay." ++ "\n---")
      (userPromptText "Task 2" "Topic" "My essay." false false) = true :=
  ⟨by decide,
   (userMessage_embeds_trimmed_essay "Task 2" "Topic" "My essay." false (by decide)).2⟩

/-- Claim C4, code bug. When the underlying read of an image cannot
complete, no distinct ReadFailure/EncodingFailure is surfaced: the promise
executor of `fileToGenerativePart` installs only a `resolve` callback (no
`reject`, no `onerror` handler), and on a failed read `onloadend` fires
with `reader.result = null`, so the handler throws on `null.split` before
ever resolving — the promise never settles and the `await` suspends the
caller forever.  The claim's second half holds (no request with missing
image data is ever sent, because assembly never completes), but its first
half fails: the caller gets a hang, not a surfaced failure. -/
theorem fileToGenerativePart_read_failure_hangs :
    fileToGenerativePart ⟨"image/png", ReadResult.err⟩ = EncodeOutcome.hang ∧
    analyzeRequest "Task 1" "The chart shows population growth" ""
      (some ⟨"image/png", ReadResult.err⟩) none = none ∧
    analyzeIeltsWriting "Task 1" "The chart shows population growth" ""
      (some ⟨"image/png", ReadResult.err⟩) none
      (fun _ => RemoteOutcome.success "ok") = none :=
  ⟨rfl, rfl, rfl⟩

theorem analyzeRequest_config {taskType topic w : String} {qi ei : Option FileInput}
    {r : Request} (h : analyzeRequest taskType topic w qi ei = some r) :
    r.config = { systemInstruction := systemInstruction } := by
  unfold analyzeRequest at h
  split at h
  · exact absurd h (by simp)
  · split at h
    · exact absurd h (by simp)
    · simp only [Option.some.injEq] at h
      rw [← h]

/-- Claim C5. The `systemInstruction` value carried by any two assembled
requests is the same compile-time constant, character for character,
whatever the task type, topic, essay text, or images: no user-supplied data
is interpolated into it. -/
theorem systemInstruction_constant_across_requests
    (tt1 topic1 w1 tt2 topic2 w2 : String) (qi1 ei1 qi2 ei2 : Option FileInput)
    (r1 r2 : Request)
    (h1 : analyzeRequest tt1 topic1 w1 qi1 ei1 = some r1)
    (h2 : analyzeRequest tt2 topic2 w2 qi2 ei2 = some r2) :
    r1.config.systemInstruction = systemInstruction ∧
    r1.config.systemInstruction = r2.config.systemInstruction := by
  have e1 := analyzeRequest_config h1
  have e2 := analyzeRequest_config h2
  rw [e1, e2]
  exact ⟨rfl, rfl⟩

/-- Witness for `systemInstruction_constant_across_requests` at two
concrete requests. -/
theorem systemInstruction_constant_across_requests_witness :
    Option.map (fun r => r.config.systemInstruction)
      (analyzeRequest "Task 1" "a" "x" none none) = some systemInstruction := by
  have h := (systemInstruction_constant_across_requests "Task 1" "a" "x" "Task 2" "b" "y"
    none none none none _ _ rfl rfl).1
  exact congrArg some h

/-- Claim C10. When an essay image is supplied, it takes precedence over the
essay text: the essay segment of the user message is the handwritten-essay
transcription instruction, it contains neither the essay-text block header
nor the no-essay marker, and the whole user message — and the whole
assembled request — are independent of the essay text argument, which is
silently ignored. -/
theorem essayImage_overrides_essayText (taskType topic w w' : String) (qiPresent : Bool)
    (qi : Option FileInput) (f : FileInput) :
    essaySegment qiPresent w true = essaySegment qiPresent w' true ∧
    occursB " attached is the User's Handwritten Essay. Please transcribe this image internally and analyze the essay content contained within it."
      (essaySegment qiPresent w true) = true ∧
    occursB "User's Essay Text:" (essaySegment qiPresent w true) = false ∧
    occursB "[NO ESSAY PROVIDED]" (essaySegment qiPresent w true) = false ∧
    userPromptText taskType topic w qiPresent true =
      userPromptText taskType topic w' qiPresent true ∧
    analyzeRequest taskType topic w qi (some f) =
      analyzeRequest taskType topic w' qi (some f) := by
  have hseg : ∀ (b : Bool) (w0 : String), essaySegment b w0 true =
      "\n" ++ (if b then "[Image 2]" else "[Image 1]")
        ++ " attached is the User's Handwritten Essay. Please transcribe this image internally and analyze the essay content contained within it." :=
    fun b w0 => rfl
  refine ⟨rfl, ?_, ?_, ?_, rfl, rfl⟩ <;> cases qiPresent <;> rw [hseg] <;> decide

/-- Claim C8. Any error of the remote completion call surfaces as the single
fixed completion-failure message — independent of which error occurred —
distinct from both caller-side validation messages; and the outcome depends
only on the first (sole) call, i.e. no automatic retry consults any later
attempt. -/
theorem completion_failure_single_opaque_message
    (taskType topic w : String) (qi ei : Option FileInput)
    (attempts attempts' : Nat → RemoteOutcome) (e : String) (req : Request)
    (hreq : analyzeRequest taskType topic w qi ei = some req)
    (hfail : attempts 0 = RemoteOutcome.failure e)
    (hsame : attempts' 0 = attempts 0) :
    analyzeIeltsWriting taskType topic w qi ei attempts =
      some (Except.error completionFailureMessage) ∧
    analyzeIeltsWriting taskType topic w qi ei attempts' =
      analyzeIeltsWriting taskType topic w qi ei attempts ∧
    completionFailureMessage ≠ topicValidationMessage ∧
    completionFailureMessage ≠ imageSizeValidationMessage := by
  refine ⟨?_, ?_, by decide, by decide⟩
  · unfold analyzeIeltsWriting
    rw [hreq]
    simp [runCompletion, hfail]
  · unfold analyzeIeltsWriting
    rw [hreq]
    simp [runCompletion, hsame]

/-- Witness for `completion_failure_single_opaque_message` at a concrete
failing transport. -/
theorem completion_failure_single_opaque_message_witness :
    analyzeIeltsWriting "Task 2" "t" "essay" none none
      (fun _ => RemoteOutcome.failure "network down") =
      some (Except.error completionFailureMessage) :=
  (completion_failure_single_opaque_message "Task 2" "t" "essay" none none
    (fun _ => RemoteOutcome.failure "network down")
    (fun _ => RemoteOutcome.failure "network down")
    "network down" _ rfl rfl rfl).1

/-- Claim C6. The renderer's line classification is total — every line shape
yields one of the six token kinds, never an error — and follows the prefix
priority order of the JSX cascade (level-3 heading, level-4 heading, bold
emphasis, list item, blank); a line matching none of the recognized
prefixes and not blank falls through to a plain paragraph. -/
theorem classifyLine_total_and_fallthrough (line : String) :
    (classifyLine line = RenderToken.heading3 (jsSubstring line 4) ∨
     classifyLine line = RenderToken.heading4 (jsSubstring line 5) ∨
     classifyLine line = RenderToken.emphasis (removeAll "**" line) ∨
     classifyLine line = RenderToken.listItem (jsSubstring line 2) ∨
     classifyLine line = RenderToken.blank ∨
     classifyLine line = RenderToken.paragraph line) ∧
    (jsStartsWith line "### " = true →
      classifyLine line = RenderToken.heading3 (jsSubstring line 4)) ∧
    (jsStartsWith line "### " = false → jsStartsWith line "#### " = true →
      classifyLine line = RenderToken.heading4 (jsSubstring line 5)) ∧
    (jsStartsWith line "### " = false → jsStartsWith line "#### " = false →
      jsStartsWith line "**" = true →
      classifyLine line = RenderToken.emphasis (removeAll "**" line)) ∧
    (jsStartsWith line "### " = false → jsStartsWith line "#### " = false →
      jsStartsWith line "**" = false → jsStartsWith line "- " = true →
      classifyLine line = RenderToken.listItem (jsSubstring line 2)) ∧
    (jsStartsWith line "### " = false → jsStartsWith line "#### " = false →
      jsStartsWith line "**" = false → jsStartsWith line "- " = false →
      jsTrim line = "" → classifyLine line = RenderToken.blank) ∧
    (jsStartsWith line "### " = false → jsStartsWith line "#### " = false →
      jsStartsWith line "**" = false → jsStartsWith line "- " = false →
      jsTrim line ≠ "" → classifyLine line = RenderToken.paragraph line) := by
  refine ⟨?_, ?_, ?_, ?_, ?_, ?_, ?_⟩
  · unfold classifyLine
    split_ifs <;> simp
  · intro h1; simp [classifyLine, h1]
  · intro h1 h2; simp [classifyLine, h1, h2]
  · intro h1 h2 h3; simp [classifyLine, h1, h2, h3]
  · intro h1 h2 h3 h4; simp [classifyLine, h1, h2, h3, h4]
  · intro h1 h2 h3 h4 h5; simp [classifyLine, h1, h2, h3, h4, h5]
  · intro h1 h2 h3 h4 h5; simp [classifyLine, h1, h2, h3, h4, h5]

/-- Witness for `classifyLine_total_and_fallthrough`: an unrecognized
construct (a blockquote) degrades to a plain paragraph. -/
theorem classifyLine_total_and_fallthrough_witness :
    classifyLine "> blockquote, not in the subset" =
      RenderToken.paragraph "> blockquote, not in the subset" :=
  (classifyLine_total_and_fallthrough "> blockquote, not in the subset").2.2.2.2.2.2
    (by decide) (by decide) (by decide) (by decide) (by decide)

/-- If the separator occurs nowhere in the remaining input, the splitter
returns the single chunk formed by the accumulator and the input. -/
theorem splitOnAux_no_occurrence {sep : List Char} (l acc : List Char)
    (h : occursIn sep l = false) :
    splitOnAux sep l acc = [acc.reverse ++ l] := by
  induction l generalizing acc with
  | nil => simp [splitOnAux]
  | cons c rest ih =>
    have h2 : listPre sep (c :: rest) = false ∧ occursIn sep rest = false := by
      constructor
      · cases hx : listPre sep (c :: rest) with
        | false => rfl
        | true => rw [occursIn, hx] at h; simp at h
      · cases hx : occursIn sep rest with
        | false => rfl
        | true => rw [occursIn, hx] at h; simp at h
    have hneg : ¬(listPre sep (c :: rest) = true ∧ sep ≠ []) := by
      rintro ⟨hT, -⟩
      rw [h2.1] at hT
      exact absurd hT (by simp)
    simp only [splitOnAux, if_neg hneg]
    rw [ih _ h2.2]
    simp

/-- Every character of every chunk the splitter produces comes from the
accumulator or from the input. -/
theorem splitOnAux_chars {sep : List Char} (l acc : List Char) :
    ∀ piece ∈ splitOnAux sep l acc, ∀ ch ∈ piece, ch ∈ acc ∨ ch ∈ l := by
  induction l, acc using splitOnAux.induct sep with
  | case1 acc =>
    intro piece hp ch hch
    simp only [splitOnAux, List.mem_singleton] at hp
    subst hp
    exact Or.inl (List.mem_reverse.mp hch)
  | case2 c rest acc hcond ih =>
    intro piece hp ch hch
    simp only [splitOnAux, if_pos hcond, List.mem_cons] at hp
    rcases hp with hp | hp
    · subst hp
      exact Or.inl (List.mem_reverse.mp hch)
    · rcases ih piece hp ch hch with hc | hc
      · simp at hc
      · exact Or.inr (List.mem_cons_of_mem _ (List.drop_subset _ _ hc))
  | case3 c rest acc hcond ih =>
    intro piece hp ch hch
    simp only [splitOnAux, if_neg hcond] at hp
    rcases ih piece hp ch hch with hc | hc
    · rcases List.mem_cons.mp hc with hc | hc
      · exact Or.inr (by simp [hc])
      · exact Or.inl hc
    · exact Or.inr (List.mem_cons_of_mem _ hc)

/-- A string all of whose characters are whitespace trims to empty. -/
theorem jsTrim_eq_empty_of_whitespace {l : List Char}
    (h : ∀ c ∈ l, c.isWhitespace = true) : jsTrim ⟨l⟩ = "" := by
  have h1 : l.dropWhile Char.isWhitespace = [] := by
    induction l with
    | nil => rfl
    | cons c rest ih =>
      rw [List.dropWhile_cons, if_pos (h c (by simp))]
      exact ih fun x hx => h x (by simp [hx])
  show (⟨_⟩ : String) = ""
  rw [show (⟨l⟩ : String).data = l from rfl, h1]
  rfl

theorem listPre_head_mem {a : Char} {p l : List Char} (h : listPre (a :: p) l = true) :
    a ∈ l := by
  obtain ⟨t, ht⟩ := listPre_exists h
  rw [ht]
  simp

/-- A line of only whitespace characters cannot start with a
non-whitespace character. -/
theorem listPre_false_of_whitespace {line : List Char} (a : Char) (p : List Char)
    (h : ∀ c ∈ line, c.isWhitespace = true) (ha : a.isWhitespace = false) :
    listPre (a :: p) line = false := by
  cases hx : listPre (a :: p) line with
  | false => rfl
  | true =>
    rw [h a (listPre_head_mem hx)] at ha
    cases ha

/-- A line of only whitespace characters classifies as a Blank token. -/
theorem classifyLine_blank_of_whitespace {line : String}
    (h : ∀ c ∈ line.data, c.isWhitespace = true) :
    classifyLine line = RenderToken.blank := by
  have h3 : jsStartsWith line "### " = false :=
    listPre_false_of_whitespace _ _ h (by decide)
  have h4 : jsStartsWith line "#### " = false :=
    listPre_false_of_whitespace _ _ h (by decide)
  have hb : jsStartsWith line "**" = false :=
    listPre_false_of_whitespace _ _ h (by decide)
  have hl : jsStartsWith line "- " = false :=
    listPre_false_of_whitespace _ _ h (by decide)
  have ht : jsTrim line = "" := by
    cases line with
    | mk l => exact jsTrim_eq_empty_of_whitespace h
  simp [classifyLine, h3, h4, hb, hl, ht]

/-- Modelled from the spec: §4.4 describes the section split as happening
"on a horizontal-rule marker (`---` on its own)", i.e. only at lines that
consist exactly of `---`; this counts the sections such a reading produces,
for comparison with the renderer's actual behavior. -/
def specSectionCount (text : String) : Nat :=
  ((jsSplit "\n" text).filter (fun l => decide (l = "---"))).length + 1

/-- Claim C7, counterexample. In `"a---b"` no line consists of `---` on its
own, so the claim's splitting rule yields one section; the renderer calls
`result.split('---')`, which also cuts mid-line, and yields two. -/
theorem renderer_splits_mid_line :
    (renderSections "a---b").length = 2 ∧ specSectionCount "a---b" = 1 := by
  constructor
  · simp [renderSections, jsSplit, splitOnAux, listPre]
  · simp [specSectionCount, jsSplit, splitOnAux, listPre]

/-- Claim C7, amended. The renderer splits the response text on *every*
occurrence of `---` (the code calls `result.split('---')`, which also cuts
inside a line), not only on a `---` standing on its own line.  The boundary
behavior claimed still holds: a response text containing no `---` at all
yields exactly one section, and a response consisting only of whitespace
(blank lines) yields a single section of only Blank tokens, with no
error. -/
theorem renderSections_boundaries (s : String) :
    (occursB "---" s = false →
      renderSections s = [(jsSplit "\n" s).map classifyLine] ∧
      (renderSections s).length = 1) ∧
    ((∀ c ∈ s.data, c.isWhitespace = true) →
      (renderSections s).length = 1 ∧
      ∀ sec ∈ renderSections s, ∀ tok ∈ sec, tok = RenderToken.blank) := by
  have hone : occursB "---" s = false →
      renderSections s = [(jsSplit "\n" s).map classifyLine] := by
    intro h
    have hsplit : jsSplit "---" s = [s] := by
      unfold jsSplit
      rw [splitOnAux_no_occurrence _ _ h]
      simp [strMk_data]
    rw [renderSections, hsplit]
    rfl
  constructor
  · intro h
    exact ⟨hone h, by rw [hone h]; rfl⟩
  · intro hws
    have hocc : occursB "---" s = false := by
      cases hx : occursB "---" s with
      | false => rfl
      | true =>
        obtain ⟨u, v, huv⟩ := occursIn_exists hx
        have hdm : ('-' : Char) ∈ s.data := by
          rw [huv]
          simp [show ("---" : String).data = ['-', '-', '-'] from rfl]
        have := hws '-' hdm
        simp at this
    refine ⟨(by rw [hone hocc]; rfl), ?_⟩
    intro sec hsec tok htok
    rw [hone hocc] at hsec
    simp only [List.mem_singleton] at hsec
    subst hsec
    simp only [List.mem_map] at htok
    obtain ⟨line, hline, hcl⟩ := htok
    unfold jsSplit at hline
    simp only [List.mem_map] at hline
    obtain ⟨piece, hpiece, hmk⟩ := hline
    have hchars := @splitOnAux_chars (("\n" : String).data) s.data [] piece hpiece
    have hlinews : ∀ c ∈ line.data, c.isWhitespace = true := by
      intro c hc
      rw [← hmk] at hc
      rcases hchars c hc with hc0 | hc0
      · simp at hc0
      · exact hws c hc0
    rw [← hcl]
    exact classifyLine_blank_of_whitespace hlinews

/-- Witness for `renderSections_boundaries`: a separator-free text gives
one section; a blank-lines-only text gives one all-Blank section. -/
theorem renderSections_boundaries_witness :
    (renderSections "hello world").length = 1 ∧
    (renderSections "\n \n").length = 1 :=
  ⟨((renderSections_boundaries "hello world").1 (by decide)).2,
   ((renderSections_boundaries "\n \n").2 (by decide)).1⟩

/-- Claim C9. Over the submission state machine of `App` — stepped by
submission start (reachable only through the enabled submit button, i.e.
not loading and topic non-empty), completion success, and completion
failure — every reachable state shows exactly one of the four displays
(spinner, error message, rendered result, empty-state placeholder); in
every reachable state an error implies no stale result is displayed
alongside it, and a freshly started submission has both the previous error
and the previous result cleared. -/
theorem ui_state_machine_invariant (s : UIState) (h : Reachable s) :
    shownCount s = 1 ∧
    (s.error.isSome = true → s.result = "") ∧
    (s.isLoading = true → s.result = "" ∧ s.error = none) := by
  induction h with
  | init => exact ⟨rfl, fun h => rfl, fun _ => ⟨rfl, rfl⟩⟩
  | start topic hr hl ht ih =>
    exact ⟨rfl, fun h => by simp at h, fun _ => ⟨rfl, rfl⟩⟩
  | succeed response hr hl ih =>
    obtain ⟨hres, herr⟩ := ih.2.2 hl
    rw [herr]
    by_cases h0 : response = "" <;>
      simp [shownCount, shownLoading, shownError, shownResult, shownPlaceholder, h0]
  | failKnown message hr hl ih =>
    obtain ⟨hres, herr⟩ := ih.2.2 hl
    rw [hres]
    exact ⟨rfl, fun _ => rfl, fun h => by simp at h⟩
  | failUnknown hr hl ih =>
    obtain ⟨hres, herr⟩ := ih.2.2 hl
    rw [hres]
    exact ⟨rfl, fun _ => rfl, fun h => by simp at h⟩

/-- Witness for `ui_state_machine_invariant` at the initial state. -/
theorem ui_state_machine_invariant_witness :
    shownCount initialUIState = 1 :=
  (ui_state_machine_invariant initialUIState Reachable.init).1
